import Mathlib

/-
Verification of the blog-post CRUD service (src/main.rs).

Shallow embedding: the Postgres table `blog_posts` is a `Store` (a list of
rows plus the next serial id).  Each sqlx round trip may be interrupted by a
store-level fault (connection loss, constraint violation, malformed query),
passed explicitly as `Option StoreFault`; `none` means the statement reaches
the store and executes normally.  A fault is surfaced as an `SqlxError` and
translated through `ApiError.fromSqlxError`, the embedding of
`impl From<sqlx::Error> for ApiError`.  A `fetch_one` that matches no row
yields `SqlxError.RowNotFound`, exactly as sqlx does.
-/

/-- The persisted entity (struct `BlogPost` in main.rs): `id` is the
server-generated primary key, the other three columns are text. -/
structure BlogPost where
  id : Int
  title : String
  author : String
  content : String
deriving DecidableEq, Repr

/-- The transient input entity (struct `NewBlogPost` in main.rs): no `id`. -/
structure NewBlogPost where
  title : String
  author : String
  content : String
deriving DecidableEq, Repr

/-- The store-level error type (`sqlx::Error`): `RowNotFound` is produced by
`fetch_one` on an empty result set; the remaining variants model the other
failure classes the spec names (connectivity, database/constraint, protocol). -/
inductive SqlxError where
  | RowNotFound
  | Io (msg : String)
  | PoolTimedOut
  | Database (msg : String)
  | Protocol (msg : String)
deriving DecidableEq, Repr

/-- The display text of a store error (`err.to_string()` in Rust). -/
def SqlxError.toString : SqlxError → String
  | SqlxError.RowNotFound =>
      "no rows returned by a query that expected to return at least one row"
  | SqlxError.Io msg => msg
  | SqlxError.PoolTimedOut => "pool timed out while waiting for an open connection"
  | SqlxError.Database msg => msg
  | SqlxError.Protocol msg => msg

/-- The API error taxonomy (enum `ApiError` in main.rs): `DatabaseError` is
what the spec calls `PersistenceError`. -/
inductive ApiError where
  | DatabaseError (msg : String)
  | NotFound (msg : String)
deriving DecidableEq, Repr

/-- `impl From<sqlx::Error> for ApiError` (main.rs lines 78-87):
`RowNotFound` becomes `NotFound "Record not found"`, every other variant
falls to the catch-all arm and becomes `DatabaseError (err.to_string())`. -/
def ApiError.fromSqlxError : SqlxError → ApiError
  | SqlxError.RowNotFound => ApiError.NotFound "Record not found"
  | e => ApiError.DatabaseError e.toString

/-- Response body shapes the handlers can produce. -/
inductive RespBody where
  | empty
  | text (s : String)
  | jsonStr (s : String)
  | jsonPost (p : BlogPost)
  | jsonNewPost (p : NewBlogPost)
  | jsonPosts (ps : List BlogPost)
deriving DecidableEq, Repr

/-- An HTTP response: a status code and a body. -/
structure HttpResponse where
  status : Nat
  body : RespBody
deriving DecidableEq, Repr

/-- `ResponseError::error_response` for `ApiError` (main.rs lines 50-59):
`DatabaseError` gives 500 with the message as JSON body, `NotFound` gives
404 with the message as JSON body. -/
def ApiError.error_response : ApiError → HttpResponse
  | ApiError.DatabaseError msg => ⟨500, RespBody.jsonStr msg⟩
  | ApiError.NotFound msg => ⟨404, RespBody.jsonStr msg⟩

/-- `ResponseError::status_code` for `ApiError` (main.rs lines 61-66). -/
def ApiError.status_code : ApiError → Nat
  | ApiError.DatabaseError _ => 500
  | ApiError.NotFound _ => 404

/-- The state of the `blog_posts` table: its rows in table order, and the
next value of the serial `id` column. -/
structure Store where
  rows : List BlogPost
  nextId : Int
deriving DecidableEq, Repr

/-- A fresh table: no rows, serial counter at 1 (Postgres SERIAL default). -/
def Store.empty : Store := ⟨[], 1⟩

/-- Well-formedness of a table reachable through this service: the serial
counter is at least 1 and strictly above every existing id. -/
def Store.WF (s : Store) : Prop :=
  1 ≤ s.nextId ∧ ∀ r ∈ s.rows, r.id < s.nextId

/-- A store-level failure that can interrupt a statement: the failure
classes named by the spec.  None of them is a row-not-found signal; sqlx
produces `RowNotFound` only from `fetch_one` on an empty result set. -/
inductive StoreFault where
  | connectionLoss (msg : String)
  | constraintViolation (msg : String)
  | malformedQuery (msg : String)
deriving DecidableEq, Repr

/-- The `sqlx::Error` a fault surfaces as. -/
def StoreFault.toSqlxError : StoreFault → SqlxError
  | StoreFault.connectionLoss msg => SqlxError.Io msg
  | StoreFault.constraintViolation msg => SqlxError.Database msg
  | StoreFault.malformedQuery msg => SqlxError.Database msg

/-- `create_post` (main.rs lines 91-108): `INSERT INTO blog_posts
(title, content, author) VALUES ($1,$2,$3) RETURNING *`, `fetch_one`,
errors mapped through `ApiError::from`.  A successful plain INSERT with
RETURNING always yields exactly the inserted row, whose id is the next
serial value. -/
def create_post (s : Store) (post : NewBlogPost) (fault : Option StoreFault) :
    Except ApiError (BlogPost × Store) :=
  match fault with
  | some f => Except.error (ApiError.fromSqlxError f.toSqlxError)
  | none =>
    let row : BlogPost := ⟨s.nextId, post.title, post.author, post.content⟩
    Except.ok (row, ⟨s.rows ++ [row], s.nextId + 1⟩)

/-- `get_all_posts` (main.rs lines 110-115): `SELECT * FROM blog_posts`,
`fetch_all`, errors mapped through `ApiError::from`.  No ORDER BY: the rows
come back in table order. -/
def get_all_posts (s : Store) (fault : Option StoreFault) :
    Except ApiError (List BlogPost) :=
  match fault with
  | some f => Except.error (ApiError.fromSqlxError f.toSqlxError)
  | none => Except.ok s.rows

/-- `get_post` (main.rs lines 117-125): `SELECT * FROM blog_posts WHERE
id = $1`, `fetch_one`, errors mapped through `ApiError::from`.  An empty
result set makes `fetch_one` fail with `SqlxError.RowNotFound`. -/
def get_post (s : Store) (id : Int) (fault : Option StoreFault) :
    Except ApiError BlogPost :=
  match fault with
  | some f => Except.error (ApiError.fromSqlxError f.toSqlxError)
  | none =>
    match s.rows.find? (fun r => r.id == id) with
    | some r => Except.ok r
    | none => Except.error (ApiError.fromSqlxError SqlxError.RowNotFound)

/-- `update_post` (main.rs lines 127-144): `UPDATE blog_posts SET title=$1,
content=$2, author=$3 WHERE id=$4`, `execute`, errors mapped through
`ApiError::from`; on success it returns `HttpResponse::Ok().json(&post)`,
the submitted body as JSON.  The UPDATE rewrites the three text columns of
every row matching `id` and reports zero affected rows (still success) when
none matches. -/
def update_post (s : Store) (id : Int) (post : NewBlogPost)
    (fault : Option StoreFault) : Except ApiError (HttpResponse × Store) :=
  match fault with
  | some f => Except.error (ApiError.fromSqlxError f.toSqlxError)
  | none =>
    let rows := s.rows.map (fun r =>
      if r.id == id then ⟨r.id, post.title, post.author, post.content⟩ else r)
    Except.ok (⟨200, RespBody.jsonNewPost post⟩, ⟨rows, s.nextId⟩)

/-- `delete_post` (main.rs lines 146-154): `DELETE FROM blog_posts WHERE
id = $1`, `execute`, errors mapped through `ApiError::from`; returns `()`
whether or not a row matched. -/
def delete_post (s : Store) (id : Int) (fault : Option StoreFault) :
    Except ApiError (Unit × Store) :=
  match fault with
  | some f => Except.error (ApiError.fromSqlxError f.toSqlxError)
  | none => Except.ok ((), ⟨s.rows.filter (fun r => r.id != id), s.nextId⟩)

/-- Handler `update_blogpost` for PUT /blog/:id (main.rs lines 188-196):
it awaits `update_post`, propagates its error with `?`, DISCARDS its
success value (the echo response), and answers `HttpResponse::Ok().finish()`
— status 200 with an empty body. -/
def update_blogpost (s : Store) (id : Int) (post : NewBlogPost)
    (fault : Option StoreFault) : Except ApiError (HttpResponse × Store) :=
  match update_post s id post fault with
  | Except.error e => Except.error e
  | Except.ok (_, s2) => Except.ok (⟨200, RespBody.empty⟩, s2)

-- -------------------- Theorems --------------------

/-- Claim C3: the store-error translation is total over the error taxonomy:
every `SqlxError` maps to exactly one of the two `ApiError` kinds — the
row-not-found signal to `NotFound`, every other store error to
`DatabaseError` (the PersistenceError of the spec) carrying the display
text of the error, nothing left untranslated. -/
theorem fromSqlxError_total (e : SqlxError) :
    (e = SqlxError.RowNotFound ∧
      ApiError.fromSqlxError e = ApiError.NotFound "Record not found") ∨
    (e ≠ SqlxError.RowNotFound ∧
      ApiError.fromSqlxError e = ApiError.DatabaseError e.toString) := by
  cases e <;> simp [ApiError.fromSqlxError, SqlxError.toString]

/-- Claim C9: the error-to-HTTP mapping is pure and total on the two-variant
error type: `NotFound msg` maps to status 404 with `msg` as the JSON body,
and `DatabaseError msg` (PersistenceError) maps to status 500 with `msg`
as the JSON body. -/
theorem error_response_total_mapping (msg : String) :
    ApiError.error_response (ApiError.NotFound msg) = ⟨404, RespBody.jsonStr msg⟩ ∧
    ApiError.status_code (ApiError.NotFound msg) = 404 ∧
    ApiError.error_response (ApiError.DatabaseError msg) = ⟨500, RespBody.jsonStr msg⟩ ∧
    ApiError.status_code (ApiError.DatabaseError msg) = 500 :=
  ⟨rfl, rfl, rfl, rfl⟩

/-- Claim C1, counterexample: at a concrete store holding row 1 and the
submitted body ⟨"T","Al","C"⟩, a successful PUT /blog/1 answers status 200
with an EMPTY body, not the submitted body echoed back: the handler
discards the echo response `update_post` builds. -/
theorem update_blogpost_body_not_echoed :
    update_blogpost (Store.mk [BlogPost.mk 1 "t" "a" "c"] 2) 1
        (NewBlogPost.mk "T" "Al" "C") none
      = Except.ok (HttpResponse.mk 200 RespBody.empty,
          Store.mk [BlogPost.mk 1 "T" "Al" "C"] 2) ∧
    RespBody.empty ≠ RespBody.jsonNewPost (NewBlogPost.mk "T" "Al" "C") := by
  exact ⟨rfl, by decide⟩

/-- Claim C1, amended: on a successful update the PUT /blog/:id endpoint
responds with status 200 and an empty body (the echo response constructed
inside `update_post` is discarded by the handler). -/
theorem update_blogpost_ok_empty_body (s : Store) (id : Int) (post : NewBlogPost) :
    ∃ s2, update_blogpost s id post none
      = Except.ok (HttpResponse.mk 200 RespBody.empty, s2) := by
  exact ⟨_, rfl⟩

/-- Claim C2: `get_post` fails with `NotFound "Record not found"` whenever no
row carries the requested id, and any other store failure during the lookup
surfaces as `DatabaseError` (the PersistenceError of the spec). -/
theorem get_post_error_taxonomy (s : Store) (id : Int) :
    ((∀ r ∈ s.rows, r.id ≠ id) →
      get_post s id none = Except.error (ApiError.NotFound "Record not found")) ∧
    (∀ f : StoreFault, ∃ msg,
      get_post s id (some f) = Except.error (ApiError.DatabaseError msg)) := by
  constructor
  · intro h
    have hf : s.rows.find? (fun r => r.id == id) = none := by
      rw [List.find?_eq_none]
      intro r hr
      simpa using h r hr
    simp [get_post, hf, ApiError.fromSqlxError]
  · intro f
    cases f <;> exact ⟨_, rfl⟩

/-- Witness for C2 at concrete inputs: id 7 is absent from a one-row store,
and a connection loss during the lookup yields a `DatabaseError`. -/
theorem get_post_error_taxonomy_witness :
    get_post (Store.mk [BlogPost.mk 1 "t" "a" "c"] 2) 7 none
      = Except.error (ApiError.NotFound "Record not found") ∧
    ∃ msg, get_post (Store.mk [BlogPost.mk 1 "t" "a" "c"] 2) 7
        (some (StoreFault.connectionLoss "connection reset"))
      = Except.error (ApiError.DatabaseError msg) :=
  ⟨(get_post_error_taxonomy (Store.mk [BlogPost.mk 1 "t" "a" "c"] 2) 7).1 (by decide),
   (get_post_error_taxonomy (Store.mk [BlogPost.mk 1 "t" "a" "c"] 2) 7).2
     (StoreFault.connectionLoss "connection reset")⟩

/-- Claim C5: `create_post` turns every store-level failure (connection loss,
constraint violation, malformed query) into `DatabaseError` (the
PersistenceError of the spec), and never fails with `NotFound` on any input:
the plain INSERT..RETURNING always hands `fetch_one` the inserted row. -/
theorem create_post_never_not_found (s : Store) (post : NewBlogPost) :
    (∀ f : StoreFault, create_post s post (some f)
        = Except.error (ApiError.DatabaseError f.toSqlxError.toString)) ∧
    (∀ (fault : Option StoreFault) (msg : String),
        create_post s post fault ≠ Except.error (ApiError.NotFound msg)) := by
  constructor
  · intro f
    cases f <;> rfl
  · intro fault msg h
    match fault with
    | none => simp [create_post] at h
    | some f =>
      cases f <;>
        simp [create_post, StoreFault.toSqlxError, ApiError.fromSqlxError] at h

/-- Claim C4: `delete_post` is idempotent and silently succeeds on absent
ids: two successive deletes of any id both succeed, deleting an id that
matches no row succeeds and leaves the rows unchanged, and no delete,
faulted or not, ever produces a `NotFound` failure. -/
theorem delete_post_idempotent (s : Store) (id : Int) :
    (∃ s1 s2, delete_post s id none = Except.ok ((), s1) ∧
              delete_post s1 id none = Except.ok ((), s2)) ∧
    ((∀ r ∈ s.rows, r.id ≠ id) →
      ∃ s1, delete_post s id none = Except.ok ((), s1) ∧ s1.rows = s.rows) ∧
    (∀ (fault : Option StoreFault) (msg : String),
      delete_post s id fault ≠ Except.error (ApiError.NotFound msg)) := by
  refine ⟨⟨_, _, rfl, rfl⟩, ?_, ?_⟩
  · intro h
    refine ⟨_, rfl, ?_⟩
    simp only [delete_post]
    apply List.filter_eq_self.mpr
    intro r hr
    simpa using h r hr
  · intro fault msg h
    match fault with
    | none => simp [delete_post] at h
    | some f =>
      cases f <;>
        simp [delete_post, StoreFault.toSqlxError, ApiError.fromSqlxError] at h

/-- Witness for C4 at concrete inputs: deleting absent id 9 from a one-row
store succeeds and leaves the row in place. -/
theorem delete_post_idempotent_witness :
    ∃ s1, delete_post (Store.mk [BlogPost.mk 1 "t" "a" "c"] 2) 9 none
        = Except.ok ((), s1) ∧
      s1.rows = (Store.mk [BlogPost.mk 1 "t" "a" "c"] 2).rows :=
  (delete_post_idempotent (Store.mk [BlogPost.mk 1 "t" "a" "c"] 2) 9).2.1 (by decide)

/-- Helper: `find?` skips a prefix on which the predicate is false. -/
theorem find_skip_left (l l2 : List BlogPost) (p : BlogPost → Bool)
    (h : ∀ r ∈ l, p r = false) : (l ++ l2).find? p = l2.find? p := by
  induction l with
  | nil => simp
  | cons a l ih =>
    rw [List.cons_append, List.find?_cons_of_neg _ (by simp [h a (by simp)])]
    exact ih (fun r hr => h r (by simp [hr]))

/-- Claim C6: for every well-formed store and every NewBlogPost, `create_post`
succeeds, the returned BlogPost carries the submitted title, author and
content together with a server-assigned id greater than 0, and `get_post`
on that id returns exactly that BlogPost. -/
theorem create_then_get_roundtrip (s : Store) (post : NewBlogPost)
    (hwf : Store.WF s) :
    ∃ b s2, create_post s post none = Except.ok (b, s2) ∧
      0 < b.id ∧ b.title = post.title ∧ b.author = post.author ∧
      b.content = post.content ∧ get_post s2 b.id none = Except.ok b := by
  refine ⟨_, _, rfl, ?_, rfl, rfl, rfl, ?_⟩
  · exact lt_of_lt_of_le zero_lt_one hwf.1
  · have hfind : (s.rows ++ [(⟨s.nextId, post.title, post.author, post.content⟩ :
        BlogPost)]).find? (fun r => r.id == s.nextId)
        = some ⟨s.nextId, post.title, post.author, post.content⟩ := by
      rw [find_skip_left]
      · exact List.find?_cons_of_pos _ (by simp)
      · intro r hr
        have hlt := hwf.2 r hr
        simp only [beq_eq_false_iff_ne, ne_eq]
        omega
    simp [get_post, hfind]

/-- Witness for C6 at concrete inputs: creating ⟨"T","Al","C"⟩ in the empty
store and reading it back. -/
theorem create_then_get_roundtrip_witness :
    ∃ b s2, create_post Store.empty (NewBlogPost.mk "T" "Al" "C") none
        = Except.ok (b, s2) ∧
      0 < b.id ∧ b.title = "T" ∧ b.author = "Al" ∧ b.content = "C" ∧
      get_post s2 b.id none = Except.ok b :=
  create_then_get_roundtrip Store.empty (NewBlogPost.mk "T" "Al" "C")
    ⟨by norm_num [Store.empty], by simp [Store.empty]⟩

/-- Helper: after the UPDATE rewrite, the first row matching `id` is the
rewritten row, provided some row matched. -/
theorem find_map_update (l : List BlogPost) (id : Int) (post : NewBlogPost)
    (h : ∃ r ∈ l, r.id = id) :
    (l.map (fun r => if r.id == id
        then BlogPost.mk r.id post.title post.author post.content else r)).find?
      (fun r => r.id == id)
      = some (BlogPost.mk id post.title post.author post.content) := by
  induction l with
  | nil => simp at h
  | cons a l ih =>
    by_cases ha : a.id = id
    · rw [List.map_cons, if_pos (by simp [ha]),
        List.find?_cons_of_pos _ (by simp [ha]), ha]
    · obtain ⟨r, hr, hrid⟩ := h
      rcases List.mem_cons.mp hr with h1 | h1
      · exact absurd hrid (h1 ▸ ha)
      · rw [List.map_cons, if_neg (by simp [ha]),
          List.find?_cons_of_neg _ (by simp [ha])]
        exact ih ⟨r, h1, hrid⟩

/-- Claim C7: for every id present in the store and every NewBlogPost,
`update_post` succeeds and a subsequent `get_post` on the same id returns a
BlogPost whose title, author and content equal the submitted fields and
whose id is the given id, unchanged. -/
theorem update_then_get_roundtrip (s : Store) (id : Int) (post : NewBlogPost)
    (h : ∃ r ∈ s.rows, r.id = id) :
    ∃ resp s2, update_post s id post none = Except.ok (resp, s2) ∧
      get_post s2 id none
        = Except.ok (BlogPost.mk id post.title post.author post.content) := by
  refine ⟨_, _, rfl, ?_⟩
  dsimp only [get_post]
  rw [find_map_update s.rows id post h]

/-- Witness for C7 at concrete inputs: updating the one existing row. -/
theorem update_then_get_roundtrip_witness :
    ∃ resp s2,
      update_post (Store.mk [BlogPost.mk 1 "t" "a" "c"] 2) 1
          (NewBlogPost.mk "T" "Al" "C") none = Except.ok (resp, s2) ∧
      get_post s2 1 none = Except.ok (BlogPost.mk 1 "T" "Al" "C") :=
  update_then_get_roundtrip (Store.mk [BlogPost.mk 1 "t" "a" "c"] 2) 1
    (NewBlogPost.mk "T" "Al" "C") ⟨BlogPost.mk 1 "t" "a" "c", by simp, rfl⟩

/-- Claim C8: starting from the empty store, creating posts A, B and C in
turn succeeds, and `get_all_posts` then returns exactly the three created
BlogPosts and no others; the three are pairwise distinct (ids 1, 2, 3), so
the listing equals the set of the created posts. -/
theorem list_after_three_creates (A B C : NewBlogPost) :
    ∃ a b c s1 s2 s3,
      create_post Store.empty A none = Except.ok (a, s1) ∧
      create_post s1 B none = Except.ok (b, s2) ∧
      create_post s2 C none = Except.ok (c, s3) ∧
      get_all_posts s3 none = Except.ok [a, b, c] ∧
      a ≠ b ∧ a ≠ c ∧ b ≠ c := by
  refine ⟨⟨1, A.title, A.author, A.content⟩, ⟨2, B.title, B.author, B.content⟩,
    ⟨3, C.title, C.author, C.content⟩, _, _, _, rfl, rfl, rfl, rfl, ?_, ?_, ?_⟩ <;>
    simp [BlogPost.mk.injEq]

/-- Helper: the UPDATE rewrite leaves the rows not matching `id` untouched. -/
theorem filter_map_update (l : List BlogPost) (id : Int) (post : NewBlogPost) :
    (l.map (fun r => if r.id == id
        then BlogPost.mk r.id post.title post.author post.content else r)).filter
      (fun r => r.id != id)
      = l.filter (fun r => r.id != id) := by
  rw [List.filter_map]
  have h1 : ∀ r ∈ l,
      ((fun r => r.id != id) ∘ (fun r => if r.id == id
          then BlogPost.mk r.id post.title post.author post.content else r)) r
        = (fun r => r.id != id) r := by
    intro r _
    simp only [Function.comp_apply]
    by_cases hc : (r.id == id) = true
    · rw [if_pos hc]
    · rw [if_neg hc]
  rw [List.filter_congr h1]
  have h2 : ∀ r ∈ l.filter (fun r => r.id != id),
      (if r.id == id then BlogPost.mk r.id post.title post.author post.content
        else r) = (fun r : BlogPost => r) r := by
    intro r hr
    have hne : r.id ≠ id := by simpa using (List.mem_filter.mp hr).2
    exact if_neg (by simpa using hne)
  rw [List.map_congr_left h2, List.map_id']

/-- Claim C10 (frame property): for every store, id and NewBlogPost, both
`update_post` and `delete_post` succeed fault-free and leave the sublist of
rows whose id differs from the given id exactly as it was: the update
rewrites only matching rows, the delete removes only matching rows. -/
theorem update_delete_frame (s : Store) (id : Int) (post : NewBlogPost) :
    (∃ resp s2, update_post s id post none = Except.ok (resp, s2) ∧
      s2.rows.filter (fun r => r.id != id)
        = s.rows.filter (fun r => r.id != id)) ∧
    (∃ s2, delete_post s id none = Except.ok ((), s2) ∧
      s2.rows.filter (fun r => r.id != id)
        = s.rows.filter (fun r => r.id != id)) := by
  constructor
  · exact ⟨_, _, rfl, filter_map_update s.rows id post⟩
  · refine ⟨_, rfl, ?_⟩
    simp [List.filter_filter]
